import Mathlib

/-!
Verification of the `NoiseState` class from
`src/packages/lntools-noise/lib/noise-state.ts` (BOLT #8 Noise_XK handshake and
transport encryption).  Buffers are modelled as lists of bytes (`List Nat`), the
external cryptographic primitives (`sha256`, `hkdf`, `ecdh`, `getPublicKey`,
`ccpEncrypt`, `ccpDecrypt`) as an abstract `Crypto` record, and the mutating
methods as pure state-passing functions.  Methods that `throw` return
`Except (NoiseError × NoiseState) _`; the error carries the state at the moment
of the throw, matching JavaScript semantics where field mutations performed
before the `throw` survive.  Every AEAD call made by a method is additionally
returned in a call log so that claims about nonces can be stated.
-/

abbrev Buffer := List Nat

/-- One ChaCha20-Poly1305 AEAD invocation: key, nonce, associated data,
payload (plaintext for encryption, ciphertext for decryption). -/
structure AeadCall where
  key : Buffer
  nonce : Buffer
  ad : Buffer
  data : Buffer
  isEncrypt : Bool
deriving Repr, DecidableEq

/-- The external primitives of `@lntools/crypto`, treated as black boxes. -/
structure Crypto where
  sha256 : Buffer → Buffer
  hkdf : Buffer → Buffer → Buffer
  ecdh : Buffer → Buffer → Buffer
  getPublicKey : Buffer → Buffer
  ccpEncrypt : Buffer → Buffer → Buffer → Buffer → Buffer
  ccpDecrypt : Buffer → Buffer → Buffer → Buffer → Option Buffer

/-- `protocolName = Buffer.from("Noise_XK_secp256k1_ChaChaPoly_SHA256")`. -/
def protocolName : Buffer := "Noise_XK_secp256k1_ChaChaPoly_SHA256".toList.map Char.toNat

/-- `prologue = Buffer.from("lightning")`. -/
def prologue : Buffer := "lightning".toList.map Char.toNat

/-- `Buffer.alloc(12)`: twelve zero bytes. -/
def zeros12 : Buffer := List.replicate 12 0

/-- `Buffer.from([0,0,0,0,1,0,0,0,0,0,0,0])`, the act-3 static-key nonce. -/
def nonceOne : Buffer := [0, 0, 0, 0, 1, 0, 0, 0, 0, 0, 0, 0]

/-- The errors thrown by `noise-state.ts` (and the AEAD authentication
failures propagated from `ccpDecrypt`, named as in the specification). -/
inductive NoiseError where
  | ACT1_READ_FAILED
  | ACT1_BAD_VERSION
  | ACT1_BAD_TAG
  | ACT2_READ_FAILED
  | ACT2_BAD_VERSION
  | ACT2_BAD_TAG
  | ACT3_READ_FAILED
  | ACT3_BAD_VERSION
  | ACT3_BAD_TAG
  | TRANSPORT_BAD_TAG
  | OUT_OF_SEQUENCE
deriving Repr, DecidableEq

/-- The fields of the `NoiseState` class.  Fields that are `undefined` until
assigned in JavaScript default to the empty buffer here. -/
structure NoiseState where
  ls : Buffer
  lpk : Buffer
  es : Buffer
  epk : Buffer
  rpk : Buffer := []
  repk : Buffer := []
  h : Buffer := []
  ck : Buffer := []
  rk : Buffer := []
  sk : Buffer := []
  sn : Buffer := []
  rn : Buffer := []
  tempK1 : Buffer := []
  tempK2 : Buffer := []
  tempK3 : Buffer := []
deriving Repr, DecidableEq

/-- The constructor: `ls`, `lpk = getPublicKey(ls)`, `es`,
`epk = getPublicKey(es)`. -/
def NoiseState.create (C : Crypto) (ls es : Buffer) : NoiseState :=
  { ls := ls, lpk := C.getPublicKey ls, es := es, epk := C.getPublicKey es }

/-- `_initialize(pubkey)`: `h := sha256(protocolName)`; `ck := h`;
`h := sha256(h ++ prologue)`; `h := sha256(h ++ pubkey)`. -/
def NoiseState.initState (C : Crypto) (s : NoiseState) (pubkey : Buffer) : NoiseState :=
  let h1 := C.sha256 protocolName
  let ck := h1
  let h2 := C.sha256 (h1 ++ prologue)
  let h3 := C.sha256 (h2 ++ pubkey)
  { s with h := h3, ck := ck }

/-- `initiatorAct1(rpk)`: produces the 50-byte act-1 message.  The second
component is the list of AEAD calls performed. -/
def NoiseState.initiatorAct1 (C : Crypto) (s0 : NoiseState) (rpk : Buffer) :
    (NoiseState × Buffer) × List AeadCall :=
  let s1 := { s0 with rpk := rpk }
  let s2 := s1.initState C s1.rpk
  let s3 := { s2 with h := C.sha256 (s2.h ++ s2.epk) }
  let ss := C.ecdh s3.rpk s3.es
  let t1 := C.hkdf s3.ck ss
  let s4 := { s3 with ck := t1.take 32, tempK1 := t1.drop 32 }
  let c := C.ccpEncrypt s4.tempK1 zeros12 s4.h []
  let s5 := { s4 with h := C.sha256 (s4.h ++ c) }
  ((s5, [0] ++ s5.epk ++ c), [⟨s4.tempK1, zeros12, s4.h, [], true⟩])

/-- `initiatorAct2(m)`: consumes the responder's 50-byte act-2 message.
Mirrors the source order: length check, parse, `repk := re`, version check,
mix, ECDH, HKDF, decrypt, mix. -/
def NoiseState.initiatorAct2 (C : Crypto) (s0 : NoiseState) (m : Buffer) :
    Except (NoiseError × NoiseState) NoiseState × List AeadCall :=
  if m.length ≠ 50 then (.error (.ACT2_READ_FAILED, s0), [])
  else
    let v := m.headI
    let re := (m.drop 1).take 33
    let c := m.drop 34
    let s1 := { s0 with repk := re }
    if v ≠ 0 then (.error (.ACT2_BAD_VERSION, s1), [])
    else
      let s2 := { s1 with h := C.sha256 (s1.h ++ s1.repk) }
      let ss := C.ecdh s2.repk s2.es
      let t2 := C.hkdf s2.ck ss
      let s3 := { s2 with ck := t2.take 32, tempK2 := t2.drop 32 }
      match C.ccpDecrypt s3.tempK2 zeros12 s3.h c with
      | none => (.error (.ACT2_BAD_TAG, s3), [⟨s3.tempK2, zeros12, s3.h, c, false⟩])
      | some _ =>
        let s4 := { s3 with h := C.sha256 (s3.h ++ c) }
        (.ok s4, [⟨s3.tempK2, zeros12, s3.h, c, false⟩])

/-- `initiatorAct3()`: produces the 66-byte act-3 message and derives the
transport keys (`sk := first half`, `rk := second half` of `hkdf(ck, empty)`). -/
def NoiseState.initiatorAct3 (C : Crypto) (s0 : NoiseState) :
    (NoiseState × Buffer) × List AeadCall :=
  let c := C.ccpEncrypt s0.tempK2 nonceOne s0.h s0.lpk
  let s1 := { s0 with h := C.sha256 (s0.h ++ c) }
  let ss := C.ecdh s1.repk s1.ls
  let t3 := C.hkdf s1.ck ss
  let s2 := { s1 with ck := t3.take 32, tempK3 := t3.drop 32 }
  let t := C.ccpEncrypt s2.tempK3 zeros12 s2.h []
  let kk := C.hkdf s2.ck []
  let s3 := { s2 with rk := kk.drop 32, sk := kk.take 32 }
  let s4 := { s3 with sn := zeros12, rn := zeros12 }
  ((s4, [0] ++ c ++ t),
    [⟨s0.tempK2, nonceOne, s0.h, s0.lpk, true⟩, ⟨s2.tempK3, zeros12, s2.h, [], true⟩])

/-- `receiveAct1(m)`: responder consumes the 50-byte act-1 message.  Note the
source calls `_initialize(this.lpk)` before the length check. -/
def NoiseState.receiveAct1 (C : Crypto) (s0 : NoiseState) (m : Buffer) :
    Except (NoiseError × NoiseState) NoiseState × List AeadCall :=
  let s1 := s0.initState C s0.lpk
  if m.length ≠ 50 then (.error (.ACT1_READ_FAILED, s1), [])
  else
    let v := m.headI
    let re := (m.drop 1).take 33
    let c := m.drop 34
    let s2 := { s1 with repk := re }
    if v ≠ 0 then (.error (.ACT1_BAD_VERSION, s2), [])
    else
      let s3 := { s2 with h := C.sha256 (s2.h ++ re) }
      let ss := C.ecdh re s3.ls
      let t1 := C.hkdf s3.ck ss
      let s4 := { s3 with ck := t1.take 32, tempK1 := t1.drop 32 }
      match C.ccpDecrypt s4.tempK1 zeros12 s4.h c with
      | none => (.error (.ACT1_BAD_TAG, s4), [⟨s4.tempK1, zeros12, s4.h, c, false⟩])
      | some _ =>
        let s5 := { s4 with h := C.sha256 (s4.h ++ c) }
        (.ok s5, [⟨s4.tempK1, zeros12, s4.h, c, false⟩])

/-- `recieveAct2()` (misspelling kept from the source): produces the 50-byte
act-2 message. -/
def NoiseState.recieveAct2 (C : Crypto) (s0 : NoiseState) :
    (NoiseState × Buffer) × List AeadCall :=
  let s1 := { s0 with h := C.sha256 (s0.h ++ s0.epk) }
  let ss := C.ecdh s1.repk s1.es
  let t2 := C.hkdf s1.ck ss
  let s2 := { s1 with ck := t2.take 32, tempK2 := t2.drop 32 }
  let c := C.ccpEncrypt s2.tempK2 zeros12 s2.h []
  let s3 := { s2 with h := C.sha256 (s2.h ++ c) }
  ((s3, [0] ++ s3.epk ++ c), [⟨s2.tempK2, zeros12, s2.h, [], true⟩])

/-- `receiveAct3(m)`: responder consumes the 66-byte act-3 message, learns the
initiator's static key and derives the transport keys (`rk := first half`,
`sk := second half` of `hkdf(ck, empty)`). -/
def NoiseState.receiveAct3 (C : Crypto) (s0 : NoiseState) (m : Buffer) :
    Except (NoiseError × NoiseState) NoiseState × List AeadCall :=
  if m.length ≠ 66 then (.error (.ACT3_READ_FAILED, s0), [])
  else
    let v := m.headI
    let c := (m.drop 1).take 49
    let t := m.drop 50
    if v ≠ 0 then (.error (.ACT3_BAD_VERSION, s0), [])
    else
      match C.ccpDecrypt s0.tempK2 nonceOne s0.h c with
      | none => (.error (.ACT3_BAD_TAG, s0), [⟨s0.tempK2, nonceOne, s0.h, c, false⟩])
      | some rs =>
        let s1 := { s0 with rpk := rs }
        let s2 := { s1 with h := C.sha256 (s1.h ++ c) }
        let ss := C.ecdh s2.rpk s2.es
        let t3 := C.hkdf s2.ck ss
        let s3 := { s2 with ck := t3.take 32, tempK3 := t3.drop 32 }
        match C.ccpDecrypt s3.tempK3 zeros12 s3.h t with
        | none =>
          (.error (.ACT3_BAD_TAG, s3),
            [⟨s0.tempK2, nonceOne, s0.h, c, false⟩, ⟨s3.tempK3, zeros12, s3.h, t, false⟩])
        | some _ =>
          let kk := C.hkdf s3.ck []
          let s4 := { s3 with rk := kk.take 32, sk := kk.drop 32 }
          let s5 := { s4 with rn := zeros12, sn := zeros12 }
          (.ok s5,
            [⟨s0.tempK2, nonceOne, s0.h, c, false⟩, ⟨s3.tempK3, zeros12, s3.h, t, false⟩])

/-- `buf.readUInt16LE(4)`: bytes 4 (low) and 5 (high). -/
def readU16LE4 (b : Buffer) : Nat := b.getD 4 0 + 256 * b.getD 5 0

/-- `buf.writeUInt16LE(v, 4)`: writes the low byte at index 4 and the high
byte at index 5 (values stay in range in all reachable states). -/
def writeU16LE4 (b : Buffer) (v : Nat) : Buffer :=
  (b.set 4 (v % 256)).set 5 (v / 256 % 256)

/-- The 2-byte big-endian length prefix, `l.writeUInt16BE(n, 0)`. -/
def writeU16BE (n : Nat) : Buffer := [n / 256 % 256, n % 256]

/-- `l.readUInt16BE(0)`. -/
def readU16BE0 (b : Buffer) : Nat := 256 * b.getD 0 0 + b.getD 1 0

/-- `_incrementSendingNonce()`: read bytes 4..5 little-endian, add one,
write back; returns the post-increment value. -/
def NoiseState.incrementSendingNonce (s : NoiseState) : Nat × NoiseState :=
  let newValue := readU16LE4 s.sn + 1
  (newValue, { s with sn := writeU16LE4 s.sn newValue })

/-- `_incrementRecievingNonce()` (misspelling kept). -/
def NoiseState.incrementRecievingNonce (s : NoiseState) : Nat × NoiseState :=
  let newValue := readU16LE4 s.rn + 1
  (newValue, { s with rn := writeU16LE4 s.rn newValue })

/-- `_rotateSendingKeys()`: `(ck, sk) := hkdf(ck, sk)` split first/second
half, `sn := 0^12`. -/
def NoiseState.rotateSendingKeys (C : Crypto) (s : NoiseState) : NoiseState :=
  let result := C.hkdf s.ck s.sk
  { s with sk := result.drop 32, ck := result.take 32, sn := zeros12 }

/-- `_rotateRecievingKeys()` (misspelling kept): `(ck, rk) := hkdf(ck, rk)`,
`rn := 0^12`. -/
def NoiseState.rotateRecievingKeys (C : Crypto) (s : NoiseState) : NoiseState :=
  let result := C.hkdf s.ck s.rk
  { s with rk := result.drop 32, ck := result.take 32, rn := zeros12 }

/-- The source line `if (this._incrementSendingNonce() >= 1000)
this._rotateSendingKeys();` as one step. -/
def NoiseState.sendStep (C : Crypto) (s : NoiseState) : NoiseState :=
  let p := s.incrementSendingNonce
  if p.1 ≥ 1000 then p.2.rotateSendingKeys C else p.2

/-- The source line `if (this._incrementRecievingNonce() >= 1000)
this._rotateRecievingKeys();` as one step. -/
def NoiseState.recvStep (C : Crypto) (s : NoiseState) : NoiseState :=
  let p := s.incrementRecievingNonce
  if p.1 ≥ 1000 then p.2.rotateRecievingKeys C else p.2

/-- `encryptMessage(m)`: AEAD-encrypt the 2-byte big-endian length then the
body, incrementing `sn` after each and rotating the sending keys whenever the
post-increment counter reaches 1000.  Returns the new state, the frame
`lc ++ c`, and the two AEAD calls made. -/
def NoiseState.encryptMessage (C : Crypto) (s0 : NoiseState) (m : Buffer) :
    (NoiseState × Buffer) × List AeadCall :=
  let l := writeU16BE m.length
  let lc := C.ccpEncrypt s0.sk s0.sn [] l
  let call1 : AeadCall := ⟨s0.sk, s0.sn, [], l, true⟩
  let s1 := s0.sendStep C
  let c := C.ccpEncrypt s1.sk s1.sn [] m
  let call2 : AeadCall := ⟨s1.sk, s1.sn, [], m, true⟩
  let s2 := s1.sendStep C
  ((s2, lc ++ c), [call1, call2])

/-- `decryptLength(lc)`: AEAD-decrypt the 18-byte length frame under
`(rk, rn)`, increment `rn` (rotating the receiving keys at 1000), and return
the big-endian length. -/
def NoiseState.decryptLength (C : Crypto) (s0 : NoiseState) (lc : Buffer) :
    Except (NoiseError × NoiseState) (NoiseState × Nat) :=
  match C.ccpDecrypt s0.rk s0.rn [] lc with
  | none => .error (.TRANSPORT_BAD_TAG, s0)
  | some l =>
    let s1 := s0.recvStep C
    .ok (s1, readU16BE0 l)

/-- `decryptMessage(c)`: AEAD-decrypt the body frame under `(rk, rn)` and
increment `rn` (rotating the receiving keys at 1000). -/
def NoiseState.decryptMessage (C : Crypto) (s0 : NoiseState) (c : Buffer) :
    Except (NoiseError × NoiseState) (NoiseState × Buffer) :=
  match C.ccpDecrypt s0.rk s0.rn [] c with
  | none => .error (.TRANSPORT_BAD_TAG, s0)
  | some m =>
    let s1 := s0.recvStep C
    .ok (s1, m)

/-- A full handshake run between an initiator with keys `(lsI, esI)` and a
responder with keys `(lsR, esR)`, wiring each produced message to the
opposite side, as the library's tests do. -/
def completeHandshake (C : Crypto) (lsI esI lsR esR : Buffer) :
    Except (NoiseError × NoiseState) (NoiseState × NoiseState) :=
  let i0 := NoiseState.create C lsI esI
  let r0 := NoiseState.create C lsR esR
  let a1 := i0.initiatorAct1 C r0.lpk
  match (r0.receiveAct1 C a1.1.2).1 with
  | .error e => .error e
  | .ok r1 =>
    let a2 := r1.recieveAct2 C
    match (a1.1.1.initiatorAct2 C a2.1.2).1 with
    | .error e => .error e
    | .ok i2 =>
      let a3 := i2.initiatorAct3 C
      match (a2.1.1.receiveAct3 C a3.1.2).1 with
      | .error e => .error e
      | .ok r3 => .ok (a3.1.1, r3)

/-- Pads or truncates a buffer to exactly 32 bytes (toy key normalisation). -/
def padTo32 (b : Buffer) : Buffer := (b ++ List.replicate 32 0).take 32

/-- A cheap mixing step for the toy hash. -/
def mixStep (acc x : Nat) : Nat := (acc * 31 + x + 7) % 509

/-- A toy keyed pseudo-hash producing `outLen` bytes. -/
def toyHash (seed : Nat) (b : Buffer) (outLen : Nat) : Buffer :=
  let a := b.foldl mixStep seed
  (List.range outLen).map (fun i => (a * (i + 2) + i * i + 1) % 256)

/-- Toy stand-in for `sha256`. -/
def toySha256 (b : Buffer) : Buffer := toyHash 3 b 32

/-- Toy stand-in for `hkdf` (64 output bytes, salt-sensitive). -/
def toyHkdf (salt ikm : Buffer) : Buffer := toyHash 5 (salt ++ [255] ++ ikm) 64

/-- Toy stand-in for `getPublicKey`: a 0x02 prefix over the padded secret. -/
def toyPub (sec : Buffer) : Buffer := 2 :: padTo32 sec

/-- Toy stand-in for `ecdh`; symmetric because the bytewise combination of
the two padded secrets is commutative. -/
def toyEcdh (pub sec : Buffer) : Buffer :=
  toyHash 9 (List.zipWith (fun u v => (u + v) % 509) (pub.drop 1) (padTo32 sec)) 32

/-- The 16-byte toy authentication tag over key, nonce, AD and plaintext. -/
def toyTag (k n ad pt : Buffer) : Buffer :=
  toyHash 11 (k ++ [251] ++ n ++ [252] ++ ad ++ [253] ++ pt) 16

/-- Toy AEAD encryption: plaintext followed by its 16-byte tag. -/
def toyEncrypt (k n ad pt : Buffer) : Buffer := pt ++ toyTag k n ad pt

/-- Toy AEAD decryption: checks the trailing tag. -/
def toyDecrypt (k n ad ct : Buffer) : Option Buffer :=
  if ct.length < 16 then none
  else
    let pt := ct.take (ct.length - 16)
    if ct.drop (ct.length - 16) = toyTag k n ad pt then some pt else none

/-- A concrete, fully computable instance of the primitive layer. -/
def toyCrypto : Crypto :=
  { sha256 := toySha256, hkdf := toyHkdf, ecdh := toyEcdh, getPublicKey := toyPub,
    ccpEncrypt := toyEncrypt, ccpDecrypt := toyDecrypt }

/-- The black-box assumptions on the primitive layer used by the handshake
proofs: compressed public keys are 33 bytes, AEAD adds a 16-byte tag,
decryption inverts encryption, and ECDH agrees across the two key pairs. -/
structure GoodCrypto (C : Crypto) : Prop where
  pub_len : ∀ sec, (C.getPublicKey sec).length = 33
  enc_len : ∀ k n ad pt, (C.ccpEncrypt k n ad pt).length = pt.length + 16
  dec_enc : ∀ k n ad pt, C.ccpDecrypt k n ad (C.ccpEncrypt k n ad pt) = some pt
  ecdh_symm : ∀ a b, C.ecdh (C.getPublicKey a) b = C.ecdh (C.getPublicKey b) a

theorem toyTag_length (k n ad pt : Buffer) : (toyTag k n ad pt).length = 16 := by
  simp [toyTag, toyHash]

theorem toyCrypto_good : GoodCrypto toyCrypto := by
  constructor
  · intro sec
    simp [toyCrypto, toyPub, padTo32]
  · intro k n ad pt
    simp [toyCrypto, toyEncrypt, toyTag_length]
  · intro k n ad pt
    have hlen : (toyEncrypt k n ad pt).length = pt.length + 16 := by
      simp [toyEncrypt, toyTag_length]
    simp only [toyCrypto, toyDecrypt, hlen]
    rw [if_neg (by omega)]
    have h1 : pt.length + 16 - 16 = pt.length := by omega
    rw [h1]
    have h2 : (toyEncrypt k n ad pt).take pt.length = pt := by
      simp [toyEncrypt, List.take_left]
    have h3 : (toyEncrypt k n ad pt).drop pt.length = toyTag k n ad pt := by
      simp [toyEncrypt, List.drop_left]
    rw [h2, h3, if_pos rfl]
  · intro a b
    have hz : ∀ x y : Buffer,
        List.zipWith (fun u v => (u + v) % 509) x y
          = List.zipWith (fun u v => (u + v) % 509) y x := by
      intro x y
      exact List.zipWith_comm_of_comm _ (fun u v => by rw [Nat.add_comm]) x y
    simp only [toyCrypto, toyEcdh, toyPub, List.drop_succ_cons, List.drop_zero]
    rw [hz]

/-- The run `r` failed with error kind `e` (in whatever state). -/
def failsWith {α : Type} (r : Except (NoiseError × NoiseState) α) (e : NoiseError) : Prop :=
  ∃ s', r = .error (e, s')

/-- Extracts the success value of an act, for concrete evaluation. -/
def okOf {α : Type} (r : Except (NoiseError × NoiseState) α) : Option α :=
  r.toOption

/-- Claim C2, amended.  After `_initialize(seed_pub)` the handshake hash is
`sha256(sha256(sha256(protocol_name) ++ prologue) ++ seed_pub)`, but `ck` is
assigned *before* the prologue and public key are mixed in, so it equals
`sha256(protocol_name)` (and in general differs from `h`). -/
theorem initState_fields (C : Crypto) (s : NoiseState) (pub : Buffer) :
    (s.initState C pub).h
        = C.sha256 (C.sha256 (C.sha256 protocolName ++ prologue) ++ pub)
      ∧ (s.initState C pub).ck = C.sha256 protocolName :=
  ⟨rfl, rfl⟩

/-- A concrete seed state for counterexamples and witnesses. -/
def cxState : NoiseState := NoiseState.create toyCrypto (List.replicate 32 1) (List.replicate 32 2)

set_option maxRecDepth 100000 in
/-- Claim C2 counterexample: at a concrete state and seeding key, `ck ≠ h`
after `_initialize`, because the code copies `h` into `ck` before mixing the
prologue and the public key. -/
theorem initState_ck_ne_h :
    (cxState.initState toyCrypto (toyPub (List.replicate 32 3))).ck
      ≠ (cxState.initState toyCrypto (toyPub (List.replicate 32 3))).h := by
  decide

/-- Claim C8: `receiveAct1` / `initiatorAct2` fail with `ACT1_READ_FAILED` /
`ACT2_READ_FAILED` exactly when the input is not 50 bytes, `receiveAct3`
fails with `ACT3_READ_FAILED` exactly when it is not 66 bytes, and each
fails with the corresponding `BAD_VERSION` error exactly when the length is
right and the first byte is nonzero. -/
theorem act_read_version_checks (C : Crypto) (s : NoiseState) (m : Buffer) :
    (failsWith (s.receiveAct1 C m).1 .ACT1_READ_FAILED ↔ m.length ≠ 50)
    ∧ (failsWith (s.receiveAct1 C m).1 .ACT1_BAD_VERSION ↔ (m.length = 50 ∧ m.headI ≠ 0))
    ∧ (failsWith (s.initiatorAct2 C m).1 .ACT2_READ_FAILED ↔ m.length ≠ 50)
    ∧ (failsWith (s.initiatorAct2 C m).1 .ACT2_BAD_VERSION ↔ (m.length = 50 ∧ m.headI ≠ 0))
    ∧ (failsWith (s.receiveAct3 C m).1 .ACT3_READ_FAILED ↔ m.length ≠ 66)
    ∧ (failsWith (s.receiveAct3 C m).1 .ACT3_BAD_VERSION ↔ (m.length = 66 ∧ m.headI ≠ 0)) := by
  refine ⟨?_, ?_, ?_, ?_, ?_, ?_⟩ <;>
    · simp only [NoiseState.receiveAct1, NoiseState.initiatorAct2, NoiseState.receiveAct3,
        failsWith]
      split
      · simp_all
      · split
        · simp_all
        · split <;> (try split) <;> simp_all

/-- Claim C9, amended (frame part): a sending-key rotation changes only
`ck`, `sk` and `sn` (to the two HKDF halves and the zero nonce) and leaves
every other field — in particular `rk` and `rn` — unchanged; symmetrically
for a receiving-key rotation. -/
theorem rotation_frame (C : Crypto) (s : NoiseState) :
    ((s.rotateSendingKeys C).sk = (C.hkdf s.ck s.sk).drop 32
      ∧ (s.rotateSendingKeys C).ck = (C.hkdf s.ck s.sk).take 32
      ∧ (s.rotateSendingKeys C).sn = zeros12
      ∧ (s.rotateSendingKeys C).rk = s.rk ∧ (s.rotateSendingKeys C).rn = s.rn
      ∧ (s.rotateSendingKeys C).ls = s.ls ∧ (s.rotateSendingKeys C).lpk = s.lpk
      ∧ (s.rotateSendingKeys C).es = s.es ∧ (s.rotateSendingKeys C).epk = s.epk
      ∧ (s.rotateSendingKeys C).rpk = s.rpk ∧ (s.rotateSendingKeys C).repk = s.repk
      ∧ (s.rotateSendingKeys C).h = s.h ∧ (s.rotateSendingKeys C).tempK1 = s.tempK1
      ∧ (s.rotateSendingKeys C).tempK2 = s.tempK2 ∧ (s.rotateSendingKeys C).tempK3 = s.tempK3)
    ∧ ((s.rotateRecievingKeys C).rk = (C.hkdf s.ck s.rk).drop 32
      ∧ (s.rotateRecievingKeys C).ck = (C.hkdf s.ck s.rk).take 32
      ∧ (s.rotateRecievingKeys C).rn = zeros12
      ∧ (s.rotateRecievingKeys C).sk = s.sk ∧ (s.rotateRecievingKeys C).sn = s.sn
      ∧ (s.rotateRecievingKeys C).ls = s.ls ∧ (s.rotateRecievingKeys C).lpk = s.lpk
      ∧ (s.rotateRecievingKeys C).es = s.es ∧ (s.rotateRecievingKeys C).epk = s.epk
      ∧ (s.rotateRecievingKeys C).rpk = s.rpk ∧ (s.rotateRecievingKeys C).repk = s.repk
      ∧ (s.rotateRecievingKeys C).h = s.h ∧ (s.rotateRecievingKeys C).tempK1 = s.tempK1
      ∧ (s.rotateRecievingKeys C).tempK2 = s.tempK2
      ∧ (s.rotateRecievingKeys C).tempK3 = s.tempK3) :=
  ⟨⟨rfl, rfl, rfl, rfl, rfl, rfl, rfl, rfl, rfl, rfl, rfl, rfl, rfl, rfl, rfl⟩,
   ⟨rfl, rfl, rfl, rfl, rfl, rfl, rfl, rfl, rfl, rfl, rfl, rfl, rfl, rfl, rfl⟩⟩

/-- A concrete transport-phase state used by the rotation counterexample:
both rotations read and write the one shared `ck` field. -/
def cx9State : NoiseState :=
  { cxState with
    ck := List.replicate 32 5
    sk := List.replicate 32 6
    rk := List.replicate 32 7
    sn := zeros12
    rn := zeros12 }

set_option maxRecDepth 100000 in
/-- Claim C9 counterexample: rotating the sending keys and then the
receiving keys yields different `sk` and `rk` than performing the two
rotations in the opposite order, because each rotation updates the shared
chaining key `ck` that the other then consumes. -/
theorem rotation_order_matters :
    ((cx9State.rotateSendingKeys toyCrypto).rotateRecievingKeys toyCrypto).rk
        ≠ ((cx9State.rotateRecievingKeys toyCrypto).rotateSendingKeys toyCrypto).rk
      ∧ ((cx9State.rotateSendingKeys toyCrypto).rotateRecievingKeys toyCrypto).sk
        ≠ ((cx9State.rotateRecievingKeys toyCrypto).rotateSendingKeys toyCrypto).sk := by
  constructor <;> decide

/-- Claim C5, amended: the act methods perform no sequence tracking at all;
none of them can fail with `OUT_OF_SEQUENCE` (and `initiatorAct1`,
`recieveAct2` and `initiatorAct3` cannot fail at all — their result type has
no error case). -/
theorem acts_never_out_of_sequence (C : Crypto) (s : NoiseState) (m m3 : Buffer) :
    (∀ s', (s.receiveAct1 C m).1 ≠ .error (.OUT_OF_SEQUENCE, s'))
    ∧ (∀ s', (s.initiatorAct2 C m).1 ≠ .error (.OUT_OF_SEQUENCE, s'))
    ∧ (∀ s', (s.receiveAct3 C m3).1 ≠ .error (.OUT_OF_SEQUENCE, s')) := by
  refine ⟨?_, ?_, ?_⟩ <;>
    · intro s'
      simp only [NoiseState.receiveAct1, NoiseState.initiatorAct2, NoiseState.receiveAct3]
      split
      · simp_all
      · split
        · simp_all
        · split <;> (try split) <;> simp_all

/-- A concrete responder for the repeated-act counterexample. -/
def cxR0 : NoiseState := NoiseState.create toyCrypto (List.replicate 32 3) (List.replicate 32 4)

/-- The concrete act-1 message `cxState` (as initiator) sends to `cxR0`. -/
def cxM1 : Buffer := (cxState.initiatorAct1 toyCrypto cxR0.lpk).1.2

/-- The responder state after its first `receiveAct1`. -/
def cxR1 : NoiseState := ((cxR0.receiveAct1 toyCrypto cxM1).1.toOption).getD cxR0

set_option maxRecDepth 1000000 in
/-- Claim C5 counterexample: calling `receiveAct1` a second time — a
repeated act, out of the fixed Act1→Act2→Act3 sequence — proceeds and
succeeds again instead of failing with `OUT_OF_SEQUENCE`. -/
theorem repeated_receiveAct1_proceeds :
    okOf (cxR0.receiveAct1 toyCrypto cxM1).1 = some cxR1
      ∧ okOf (cxR1.receiveAct1 toyCrypto cxM1).1 = some cxR1 := by
  constructor <;> decide

/-- Claim C10: when a 50-byte message carries a nonzero version byte,
`receiveAct1` raises `ACT1_BAD_VERSION` only after it has reinitialized `h`
and `ck` and stored bytes 1..33 into `repk`, and `initiatorAct2` raises
`ACT2_BAD_VERSION` after storing `repk` (leaving its `h` and `ck` alone):
the failed call still mutates the state. -/
theorem bad_version_mutates_state (C : Crypto) (s : NoiseState) (m : Buffer)
    (hl : m.length = 50) (hv : m.headI ≠ 0) :
    (s.receiveAct1 C m).1
        = .error (.ACT1_BAD_VERSION,
            { s.initState C s.lpk with repk := (m.drop 1).take 33 })
      ∧ (s.initiatorAct2 C m).1
        = .error (.ACT2_BAD_VERSION, { s with repk := (m.drop 1).take 33 })
      ∧ ({ s.initState C s.lpk with repk := (m.drop 1).take 33 } : NoiseState).h
          = C.sha256 (C.sha256 (C.sha256 protocolName ++ prologue) ++ s.lpk)
      ∧ ({ s.initState C s.lpk with repk := (m.drop 1).take 33 } : NoiseState).ck
          = C.sha256 protocolName := by
  have h50 : ¬(m.length ≠ 50) := by omega
  refine ⟨?_, ?_, rfl, rfl⟩ <;>
  · simp only [NoiseState.receiveAct1, NoiseState.initiatorAct2]
    rw [if_neg h50, if_pos hv]

/-- A concrete 50-byte message with version byte 1. -/
def cxBadVer : Buffer := 1 :: List.replicate 49 0

/-- Witness for claim C10 at a concrete state and message. -/
theorem bad_version_mutates_state_witness :
    (cxState.receiveAct1 toyCrypto cxBadVer).1
        = .error (.ACT1_BAD_VERSION,
            { cxState.initState toyCrypto cxState.lpk with repk := (cxBadVer.drop 1).take 33 })
      ∧ (cxState.initiatorAct2 toyCrypto cxBadVer).1
        = .error (.ACT2_BAD_VERSION, { cxState with repk := (cxBadVer.drop 1).take 33 })
      ∧ ({ cxState.initState toyCrypto cxState.lpk with
            repk := (cxBadVer.drop 1).take 33 } : NoiseState).h
          = toyCrypto.sha256
              (toyCrypto.sha256 (toyCrypto.sha256 protocolName ++ prologue) ++ cxState.lpk)
      ∧ ({ cxState.initState toyCrypto cxState.lpk with
            repk := (cxBadVer.drop 1).take 33 } : NoiseState).ck
          = toyCrypto.sha256 protocolName :=
  bad_version_mutates_state toyCrypto cxState cxBadVer (by decide) (by decide)

/-- Claim C7: `encryptMessage(m)` returns `lc ++ c` where `lc` is the
18-byte AEAD encryption, under `sk` and the current `sn` with empty
associated data, of the 2-byte big-endian encoding of `|m|`, and `c` is the
`|m| + 16`-byte AEAD encryption of `m`; the frame is `|m| + 34` bytes, and
exactly 34 bytes for the empty payload. -/
theorem encryptMessage_frame (C : Crypto) (hC : GoodCrypto C) (s : NoiseState) (m : Buffer)
    (hm : m.length ≤ 65535) :
    ∃ k2 n2,
      (s.encryptMessage C m).1.2
          = C.ccpEncrypt s.sk s.sn [] (writeU16BE m.length) ++ C.ccpEncrypt k2 n2 [] m
        ∧ (C.ccpEncrypt s.sk s.sn [] (writeU16BE m.length)).length = 18
        ∧ (C.ccpEncrypt k2 n2 [] m).length = m.length + 16
        ∧ (s.encryptMessage C m).1.2.length = m.length + 34
        ∧ (m = [] → (s.encryptMessage C m).1.2.length = 34) := by
  refine ⟨_, _, rfl, ?_, ?_, ?_, ?_⟩
  · rw [hC.enc_len]
    simp [writeU16BE]
  · rw [hC.enc_len]
  · show (_ ++ _ : Buffer).length = m.length + 34
    rw [List.length_append, hC.enc_len, hC.enc_len]
    simp [writeU16BE]
    omega
  · intro hnil
    subst hnil
    show (_ ++ _ : Buffer).length = 34
    rw [List.length_append, hC.enc_len, hC.enc_len]
    simp [writeU16BE]

/-- Witness for claim C7 on a concrete transport state and the message
"hello". -/
theorem encryptMessage_frame_witness :
    ∃ k2 n2,
      (cx9State.encryptMessage toyCrypto [104, 101, 108, 108, 111]).1.2
          = toyCrypto.ccpEncrypt cx9State.sk cx9State.sn []
              (writeU16BE ([104, 101, 108, 108, 111] : Buffer).length)
            ++ toyCrypto.ccpEncrypt k2 n2 [] [104, 101, 108, 108, 111]
        ∧ (toyCrypto.ccpEncrypt cx9State.sk cx9State.sn []
            (writeU16BE ([104, 101, 108, 108, 111] : Buffer).length)).length = 18
        ∧ (toyCrypto.ccpEncrypt k2 n2 [] [104, 101, 108, 108, 111]).length = 5 + 16
        ∧ (cx9State.encryptMessage toyCrypto [104, 101, 108, 108, 111]).1.2.length = 5 + 34
        ∧ (([104, 101, 108, 108, 111] : Buffer) = []
            → (cx9State.encryptMessage toyCrypto [104, 101, 108, 108, 111]).1.2.length = 34) :=
  encryptMessage_frame toyCrypto toyCrypto_good cx9State [104, 101, 108, 108, 111] (by decide)

/-- A well-formed transport nonce: counter `c` in bytes 4..5 (little-endian),
all other bytes zero. -/
def counterNonce (c : Nat) : Buffer :=
  [0, 0, 0, 0, c % 256, c / 256 % 256, 0, 0, 0, 0, 0, 0]

theorem readU16LE4_counterNonce (c : Nat) (hc : c < 65536) :
    readU16LE4 (counterNonce c) = c := by
  simp [readU16LE4, counterNonce, List.getD]
  omega

theorem writeU16LE4_counterNonce (b c : Nat) :
    writeU16LE4 (counterNonce b) c = counterNonce c := by
  simp [writeU16LE4, counterNonce, List.set]

/-- Claim C3: incrementing a nonce reads bytes 4..5 as a little-endian
uint16, adds one and writes it back; within `encryptMessage` (and
`decryptMessage`) the direction's keys rotate exactly when the
post-increment counter reaches 1000, the AEAD call that triggered the
rotation having used counter 999, and rotation resets the direction's nonce
to twelve zero bytes so the next AEAD call uses the new key with counter 0
(visible in the logged second call). -/
theorem nonce_increment_and_rotation (C : Crypto) (s : NoiseState) (c d : Nat) (m b x : Buffer)
    (hsn : s.sn = counterNonce c) (hc : c ≤ 999)
    (hrn : s.rn = counterNonce d) (hd : d ≤ 999)
    (hdec : C.ccpDecrypt s.rk s.rn [] b = some x) :
    s.incrementSendingNonce = (c + 1, { s with sn := counterNonce (c + 1) })
    ∧ s.incrementRecievingNonce = (d + 1, { s with rn := counterNonce (d + 1) })
    ∧ (s.encryptMessage C m).2
        = [⟨s.sk, counterNonce c, [], writeU16BE m.length, true⟩,
           if 1000 ≤ c + 1 then ⟨(C.hkdf s.ck s.sk).drop 32, counterNonce 0, [], m, true⟩
           else ⟨s.sk, counterNonce (c + 1), [], m, true⟩]
    ∧ s.decryptMessage C b
        = .ok ((if 1000 ≤ d + 1 then
                  ({ s with rn := counterNonce (d + 1) }).rotateRecievingKeys C
                else { s with rn := counterNonce (d + 1) }), x)
    ∧ counterNonce 0 = zeros12
    ∧ (∀ s₂ : NoiseState, (s₂.rotateSendingKeys C).sn = zeros12
        ∧ (s₂.rotateRecievingKeys C).rn = zeros12) := by
  have hrs : readU16LE4 s.sn = c := by
    rw [hsn]; exact readU16LE4_counterNonce c (by omega)
  have hrr : readU16LE4 s.rn = d := by
    rw [hrn]; exact readU16LE4_counterNonce d (by omega)
  have hrc : readU16LE4 (counterNonce c) = c := readU16LE4_counterNonce c (by omega)
  have hrd : readU16LE4 (counterNonce d) = d := readU16LE4_counterNonce d (by omega)
  have hincS : s.incrementSendingNonce = (c + 1, { s with sn := counterNonce (c + 1) }) := by
    simp [NoiseState.incrementSendingNonce, hsn, hrc, writeU16LE4_counterNonce]
  have hincR : s.incrementRecievingNonce = (d + 1, { s with rn := counterNonce (d + 1) }) := by
    simp [NoiseState.incrementRecievingNonce, hrn, hrd, writeU16LE4_counterNonce]
  refine ⟨hincS, hincR, ?_, ?_, by decide, fun s₂ => ⟨rfl, rfl⟩⟩
  · simp only [NoiseState.encryptMessage, NoiseState.sendStep, hincS, hsn]
    by_cases h1000 : 1000 ≤ c + 1
    · simp [h1000, NoiseState.rotateSendingKeys]
      decide
    · simp [h1000]
  · simp only [NoiseState.decryptMessage, NoiseState.recvStep, hdec, hincR]

/-- A concrete transport state whose send counter sits at 999 (about to
rotate) and whose receive counter sits at 5. -/
def cx3State : NoiseState :=
  { cxState with
    ck := List.replicate 32 8
    sk := List.replicate 32 9
    rk := List.replicate 32 10
    sn := counterNonce 999
    rn := counterNonce 5 }

/-- A ciphertext for `cx3State`'s receiving keys. -/
def cx3Ct : Buffer := toyEncrypt cx3State.rk cx3State.rn [] [42]

set_option maxRecDepth 1000000 in
/-- Witness for claim C3: at counter 999 the send side logs the old key and
counter-999 nonce for the length frame, rotates, and logs the rotated key
with a zero nonce for the body. -/
theorem nonce_increment_and_rotation_witness :
    cx3State.incrementSendingNonce
        = (999 + 1, { cx3State with sn := counterNonce (999 + 1) })
    ∧ cx3State.incrementRecievingNonce
        = (5 + 1, { cx3State with rn := counterNonce (5 + 1) })
    ∧ (cx3State.encryptMessage toyCrypto [1, 2, 3]).2
        = [⟨cx3State.sk, counterNonce 999, [], writeU16BE ([1, 2, 3] : Buffer).length, true⟩,
           if 1000 ≤ 999 + 1 then
             ⟨(toyCrypto.hkdf cx3State.ck cx3State.sk).drop 32, counterNonce 0, [], [1, 2, 3], true⟩
           else ⟨cx3State.sk, counterNonce (999 + 1), [], [1, 2, 3], true⟩]
    ∧ cx3State.decryptMessage toyCrypto cx3Ct
        = .ok ((if 1000 ≤ 5 + 1 then
                  ({ cx3State with rn := counterNonce (5 + 1) }).rotateRecievingKeys toyCrypto
                else { cx3State with rn := counterNonce (5 + 1) }), [42])
    ∧ counterNonce 0 = zeros12
    ∧ (∀ s₂ : NoiseState, (s₂.rotateSendingKeys toyCrypto).sn = zeros12
        ∧ (s₂.rotateRecievingKeys toyCrypto).rn = zeros12) :=
  nonce_increment_and_rotation toyCrypto cx3State 999 5 [1, 2, 3] cx3Ct [42]
    rfl (by omega) rfl (by omega) (by decide)

/-- Claim C6: every AEAD call logged during the handshake acts uses the
all-zero 12-byte nonce, except the `initiatorAct3` call that encrypts the
initiator's static key `lpk` and the `receiveAct3` call that decrypts it,
which use `00 00 00 00 01 00 00 00 00 00 00 00`. -/
theorem handshake_nonces (C : Crypto) (s : NoiseState) (rpk m1 m2 m3 : Buffer) :
    (s.initiatorAct1 C rpk).2.map AeadCall.nonce = [zeros12]
    ∧ (∀ call ∈ (s.initiatorAct2 C m2).2, call.nonce = zeros12)
    ∧ (s.initiatorAct3 C).2.map (fun a => (a.nonce, a.data))
        = [(nonceOne, s.lpk), (zeros12, [])]
    ∧ (∀ call ∈ (s.receiveAct1 C m1).2, call.nonce = zeros12)
    ∧ (s.recieveAct2 C).2.map AeadCall.nonce = [zeros12]
    ∧ (∃ k, (s.receiveAct3 C m3).2.map (fun a => (a.nonce, a.data))
          = [(nonceOne, (m3.drop 1).take 49), (zeros12, m3.drop 50)].take k) := by
  refine ⟨rfl, ?_, rfl, ?_, rfl, ?_⟩
  · simp only [NoiseState.initiatorAct2]
    split
    · simp
    · split
      · simp
      · split <;> simp
  · simp only [NoiseState.receiveAct1]
    split
    · simp
    · split
      · simp
      · split <;> simp
  · simp only [NoiseState.receiveAct3]
    split
    · exact ⟨0, rfl⟩
    · split
      · exact ⟨0, rfl⟩
      · split
        · exact ⟨1, rfl⟩
        · split
          · exact ⟨2, rfl⟩
          · exact ⟨2, rfl⟩

/-- If the receiver's `(rk, rn, ck)` equal the sender's `(sk, sn, ck)`, they
still agree after one nonce-increment / possible-rotation step on each side. -/
theorem recvStep_mirrors (C : Crypto) (s r : NoiseState)
    (hrk : r.rk = s.sk) (hrn : r.rn = s.sn) (hck : r.ck = s.ck) :
    (r.recvStep C).rk = (s.sendStep C).sk ∧ (r.recvStep C).rn = (s.sendStep C).sn
      ∧ (r.recvStep C).ck = (s.sendStep C).ck := by
  simp only [NoiseState.recvStep, NoiseState.sendStep, NoiseState.incrementRecievingNonce,
    NoiseState.incrementSendingNonce, NoiseState.rotateRecievingKeys,
    NoiseState.rotateSendingKeys, hrk, hrn, hck]
  by_cases h : readU16LE4 s.sn + 1 ≥ 1000 <;> simp [h]

/-- Claim C4, amended: the round trip additionally needs the receiver's `ck`
to equal the sender's `ck` (it is consumed if the frame triggers the
1000-message rotation between the two AEAD calls).  With `rk = sk`,
`rn = sn` and `ck = ck` synchronized, `decryptLength` on the first 18 bytes
of `encryptMessage(m)` returns `|m|` and `decryptMessage` on the rest
returns `m`. -/
theorem transport_roundtrip (C : Crypto) (hC : GoodCrypto C) (s r : NoiseState) (m : Buffer)
    (hm : m.length ≤ 65535) (hrk : r.rk = s.sk) (hrn : r.rn = s.sn) (hck : r.ck = s.ck) :
    ∃ r1 r2,
      r.decryptLength C ((s.encryptMessage C m).1.2.take 18) = .ok (r1, m.length)
      ∧ r1.decryptMessage C ((s.encryptMessage C m).1.2.drop 18) = .ok (r2, m) := by
  have hlcLen : (C.ccpEncrypt s.sk s.sn [] (writeU16BE m.length)).length = 18 := by
    rw [hC.enc_len]; simp [writeU16BE]
  have htake : (s.encryptMessage C m).1.2.take 18
      = C.ccpEncrypt s.sk s.sn [] (writeU16BE m.length) := by
    show (C.ccpEncrypt s.sk s.sn [] (writeU16BE m.length)
        ++ C.ccpEncrypt (s.sendStep C).sk (s.sendStep C).sn [] m).take 18 = _
    exact List.take_left' hlcLen
  have hdrop : (s.encryptMessage C m).1.2.drop 18
      = C.ccpEncrypt (s.sendStep C).sk (s.sendStep C).sn [] m := by
    show (C.ccpEncrypt s.sk s.sn [] (writeU16BE m.length)
        ++ C.ccpEncrypt (s.sendStep C).sk (s.sendStep C).sn [] m).drop 18 = _
    exact List.drop_left' hlcLen
  have hread : readU16BE0 (writeU16BE m.length) = m.length := by
    simp [readU16BE0, writeU16BE, List.getD]
    omega
  have hmir := recvStep_mirrors C s r hrk hrn hck
  refine ⟨r.recvStep C, (r.recvStep C).recvStep C, ?_, ?_⟩
  · simp only [NoiseState.decryptLength, htake, hrk, hrn, hC.dec_enc, hread]
  · simp only [NoiseState.decryptMessage, hdrop, hmir.1, hmir.2.1, hC.dec_enc]

/-- A receiver synchronized with `cx3State` in all of `rk`, `rn` and `ck`. -/
def cx4Recv : NoiseState :=
  { cxR0 with
    ck := cx3State.ck
    rk := cx3State.sk
    rn := cx3State.sn
    sk := List.replicate 32 11
    sn := zeros12 }

/-- Witness for the amended claim C4, across the rotation boundary
(the sender's counter is 999, so the frame rotates between length and body). -/
theorem transport_roundtrip_witness :
    ∃ r1 r2,
      cx4Recv.decryptLength toyCrypto
          ((cx3State.encryptMessage toyCrypto [7, 8]).1.2.take 18)
        = .ok (r1, ([7, 8] : Buffer).length)
      ∧ r1.decryptMessage toyCrypto ((cx3State.encryptMessage toyCrypto [7, 8]).1.2.drop 18)
        = .ok (r2, [7, 8]) :=
  transport_roundtrip toyCrypto toyCrypto_good cx3State cx4Recv [7, 8]
    (by decide) rfl rfl rfl

/-- A receiver synchronized in `rk` and `rn` but holding a different `ck`. -/
def cx4Bad : NoiseState := { cx4Recv with ck := List.replicate 32 13 }

set_option maxRecDepth 1000000 in
/-- Claim C4 counterexample: with only `rk = sk` and `rn = sn` synchronized
(as the claim states) but a different `ck`, the frame that crosses the
rotation boundary still yields the correct length, yet the body decryption
fails instead of returning `m`. -/
theorem transport_roundtrip_needs_ck :
    cx4Bad.rk = cx3State.sk ∧ cx4Bad.rn = cx3State.sn
    ∧ okOf (cx4Bad.decryptLength toyCrypto
        ((cx3State.encryptMessage toyCrypto [7, 8]).1.2.take 18))
        = some (cx4Bad.recvStep toyCrypto, 2)
    ∧ okOf ((cx4Bad.recvStep toyCrypto).decryptMessage toyCrypto
        ((cx3State.encryptMessage toyCrypto [7, 8]).1.2.drop 18)) = none := by
  refine ⟨rfl, rfl, by decide, by decide⟩

theorem parse_take33 (e c : Buffer) (he : e.length = 33) :
    List.take 33 (List.drop 1 (0 :: e ++ c)) = e := by
  have h : List.drop 1 (0 :: e ++ c) = e ++ c := rfl
  rw [h, List.take_left' he]

theorem parse_drop34 (e c : Buffer) (he : e.length = 33) :
    List.drop 34 (0 :: e ++ c) = c := by
  have h : List.drop 34 (0 :: e ++ c) = List.drop 33 (e ++ c) := rfl
  rw [h, List.drop_left' he]

theorem parse_take49 (e c : Buffer) (he : e.length = 49) :
    List.take 49 (List.drop 1 (0 :: e ++ c)) = e := by
  have h : List.drop 1 (0 :: e ++ c) = e ++ c := rfl
  rw [h, List.take_left' he]

theorem parse_drop50 (e c : Buffer) (he : e.length = 49) :
    List.drop 50 (0 :: e ++ c) = c := by
  have h : List.drop 50 (0 :: e ++ c) = List.drop 49 (e ++ c) := rfl
  rw [h, List.drop_left' he]

/-- Claim C1: any matched-keys handshake run completes, and afterwards the
initiator's `sk` equals the responder's `rk` and vice versa; the initiator
splits `hkdf(ck, empty)` as `sk := first 32 bytes, rk := second 32 bytes`
while the responder splits it the mirrored way. -/
theorem handshake_key_agreement (C : Crypto) (hC : GoodCrypto C) (lsI esI lsR esR : Buffer) :
    ∃ i3 r3 : NoiseState,
      completeHandshake C lsI esI lsR esR = .ok (i3, r3)
      ∧ i3.sk = r3.rk ∧ i3.rk = r3.sk
      ∧ i3.sk = (C.hkdf i3.ck []).take 32 ∧ i3.rk = (C.hkdf i3.ck []).drop 32
      ∧ r3.rk = (C.hkdf r3.ck []).take 32 ∧ r3.sk = (C.hkdf r3.ck []).drop 32 := by
  have e1 : C.ecdh (C.getPublicKey esI) lsR = C.ecdh (C.getPublicKey lsR) esI :=
    hC.ecdh_symm esI lsR
  have e2 : C.ecdh (C.getPublicKey esR) esI = C.ecdh (C.getPublicKey esI) esR :=
    hC.ecdh_symm esR esI
  have e3 : C.ecdh (C.getPublicKey lsI) esR = C.ecdh (C.getPublicKey esR) lsI :=
    hC.ecdh_symm lsI esR
  simp only [completeHandshake, NoiseState.create, NoiseState.initiatorAct1, NoiseState.initState,
    NoiseState.receiveAct1, NoiseState.recieveAct2, NoiseState.initiatorAct2,
    NoiseState.initiatorAct3, NoiseState.receiveAct3,
    List.singleton_append, List.length_cons, List.length_append, List.length_nil,
    hC.pub_len, hC.enc_len, Nat.reduceAdd, ne_eq, not_true, if_false, List.headI_cons,
    parse_take33, parse_drop34, parse_take49, parse_drop50,
    e1, e2, e3, hC.dec_enc]
  simp [hC.pub_len, hC.enc_len, parse_take33, parse_drop34, parse_take49, parse_drop50,
    e1, e2, e3, hC.dec_enc]
  exact ⟨_, _, ⟨rfl, rfl⟩, rfl, rfl, rfl, rfl, rfl, rfl⟩

/-- Witness for claim C1: the full handshake at concrete key material. -/
theorem handshake_key_agreement_witness :
    ∃ i3 r3 : NoiseState,
      completeHandshake toyCrypto (List.replicate 32 1) (List.replicate 32 2)
          (List.replicate 32 3) (List.replicate 32 4) = .ok (i3, r3)
      ∧ i3.sk = r3.rk ∧ i3.rk = r3.sk
      ∧ i3.sk = (toyCrypto.hkdf i3.ck []).take 32 ∧ i3.rk = (toyCrypto.hkdf i3.ck []).drop 32
      ∧ r3.rk = (toyCrypto.hkdf r3.ck []).take 32
      ∧ r3.sk = (toyCrypto.hkdf r3.ck []).drop 32 :=
  handshake_key_agreement toyCrypto toyCrypto_good (List.replicate 32 1) (List.replicate 32 2)
    (List.replicate 32 3) (List.replicate 32 4)
